import Mathlib

/-!
Shallow embedding of the study-tracker client logic (src/pages/StudentDashboard.tsx,
which holds both the StudentDashboard and AdminDashboard components, and the shared
types module).

Timestamps are modelled as integers counting milliseconds, as in the source
(JavaScript epoch milliseconds).  The embedding fixes the local timezone offset to
zero, so calendar-day boundaries fall on multiples of 86400000 ms; the date-fns
helpers used by the source are embedded accordingly:
  startOfDay t  = the largest multiple of 86400000 that is at most t
  isToday x     = x falls on the same calendar day as the current instant
  isPast x      = x is strictly before the current instant
  isFuture x    = x is strictly after the current instant
Civil-calendar conversions (parseISO of a yyyy-MM-dd string, format yyyy-MM-dd,
startOfMonth / endOfMonth / eachDayOfInterval) are embedded with the standard
proleptic-Gregorian day-number algorithms.
-/

namespace StudyTracker

/-- Milliseconds in one day (the 86400000 constant appearing in the source). -/
def dayMs : Int := 86400000

/-- Calendar day number of a millisecond timestamp (floor division; day 0 starts at
the epoch). -/
def dayOf (t : Int) : Int := t / dayMs

/-- date-fns startOfDay: the midnight opening the calendar day of t, as a timestamp. -/
def startOfDay (t : Int) : Int := dayMs * dayOf t

/-- date-fns isToday relative to the current instant: same calendar day. -/
def isToday (now x : Int) : Bool := dayOf x == dayOf now

/-- date-fns isPast relative to the current instant: strictly before now. -/
def isPast (now x : Int) : Bool := decide (x < now)

/-- date-fns isFuture relative to the current instant: strictly after now. -/
def isFuture (now x : Int) : Bool := decide (now < x)

/-- Gregorian leap-year rule. -/
def isLeapYear (y : Int) : Bool := (y % 4 == 0 && y % 100 != 0) || y % 400 == 0

/-- Number of days in month m of year y (months numbered 1..12). -/
def daysInMonth (y m : Int) : Int :=
  if m == 2 then (if isLeapYear y then 29 else 28)
  else if m == 4 || m == 6 || m == 9 || m == 11 then 30
  else 31

/-- A yyyy-MM-dd date string, represented by its numeric fields.  For canonical
zero-padded date strings of the HTML date input, JavaScript lexicographic string
comparison coincides with lexicographic comparison of the (year, month, day)
fields, which is how string comparison is embedded below. -/
structure DateStr where
  y : Int
  m : Int
  d : Int
deriving DecidableEq

/-- JavaScript < on canonical yyyy-MM-dd strings: lexicographic on the fields. -/
def dateStrLt (a b : DateStr) : Bool :=
  decide (a.y < b.y) ||
    (a.y == b.y && (decide (a.m < b.m) || (a.m == b.m && decide (a.d < b.d))))

/-- Day number (days since the epoch) of a civil date, standard proleptic-Gregorian
conversion. -/
def daysFromCivil (y m d : Int) : Int :=
  let y2 := if m ≤ 2 then y - 1 else y
  let era := y2 / 400
  let yoe := y2 - era * 400
  let mp := if 2 < m then m - 3 else m + 9
  let doy := (153 * mp + 2) / 5 + d - 1
  let doe := yoe * 365 + yoe / 4 - yoe / 100 + doy
  era * 146097 + doe - 719468

/-- Civil date of a day number, inverse of daysFromCivil. -/
def civilFromDays (z0 : Int) : DateStr :=
  let z := z0 + 719468
  let era := z / 146097
  let doe := z - era * 146097
  let yoe := (doe - doe / 1460 + doe / 36524 - doe / 146096) / 365
  let y := yoe + era * 400
  let doy := doe - (365 * yoe + yoe / 4 - yoe / 100)
  let mp := (5 * doy + 2) / 153
  let d := doy - (153 * mp + 2) / 5 + 1
  let m := if mp < 10 then mp + 3 else mp - 9
  ⟨if m ≤ 2 then y + 1 else y, m, d⟩

/-- date-fns parseISO on a yyyy-MM-dd string: midnight of that civil date. -/
def parseISO (ds : DateStr) : Int := dayMs * daysFromCivil ds.y ds.m ds.d

/-- format(now, yyyy-MM-dd) producing the DateStr of the current day (the todayStr
computed in handleAddTask). -/
def todayDateStr (now : Int) : DateStr := civilFromDays (dayOf now)

/-- Zero-pad a non-negative integer to the given width. -/
def padInt (width : Nat) (n : Int) : String :=
  let s := toString n
  if 0 ≤ n && decide (s.length < width) then
    String.mk (List.replicate (width - s.length) '0') ++ s
  else s

/-- date-fns format with pattern yyyy-MM-dd applied to a timestamp. -/
def formatYMD (t : Int) : String :=
  let c := civilFromDays (dayOf t)
  padInt 4 c.y ++ "-" ++ padInt 2 c.m ++ "-" ++ padInt 2 c.d

/-- JavaScript String.prototype.trim: strip whitespace from both ends.  Embedded
structurally over the character list so that concrete inputs evaluate. -/
def jsTrim (s : String) : String :=
  String.mk (((s.data.dropWhile Char.isWhitespace).reverse.dropWhile
    Char.isWhitespace).reverse)

/-- The Task document shape from the shared types module. -/
structure Task where
  id : String
  userId : String
  title : String
  description : Option String := none
  dueDate : Int
  completed : Bool
  completedAt : Option Int := none
  createdAt : Int
deriving DecidableEq

/-- User role from the shared types module. -/
inductive UserRole
  | STUDENT
  | ADMIN
deriving DecidableEq

/-- The UserProfile document shape from the shared types module. -/
structure UserProfile where
  uid : String
  email : String
  displayName : String
  photoURL : String
  role : UserRole
  bio : Option String := none
  createdAt : Int
deriving DecidableEq

/-- StudentDashboard handleAddTask: rejects a blank trimmed title, rejects a due-date
string lexicographically below the yyyy-MM-dd string of the current day, otherwise
creates the task with the trimmed title and the start-of-day timestamp of the parsed
date (document id assigned by the backend, modelled as empty). -/
def handleAddTask (userId title : String) (newTaskDate : DateStr) (now : Int) :
    Option Task :=
  if jsTrim title = "" then none
  else if dateStrLt newTaskDate (todayDateStr now) then none
  else some { id := "", userId := userId, title := jsTrim title,
              dueDate := startOfDay (parseISO newTaskDate),
              completed := false, createdAt := now }

/-- StudentDashboard toggleTask: flips completed and writes completedAt to the
current instant exactly when the new completed value is true, clearing it (null)
otherwise. -/
def toggleTask (task : Task) (now : Int) : Task :=
  { task with completed := !task.completed,
              completedAt := if !task.completed then some now else none }

/-- StudentDashboard handleUpdateTask: rejects a blank trimmed title, otherwise
overwrites the title with its trimmed form and the due date with the start-of-day
timestamp of the parsed edit-date string.  No comparison against the current day is
performed. -/
def handleUpdateTask (task : Task) (editTitle : String) (editDate : DateStr) :
    Option Task :=
  if jsTrim editTitle = "" then none
  else some { task with title := jsTrim editTitle,
                        dueDate := startOfDay (parseISO editDate) }

/-- StudentDashboard stats: number of completed tasks. -/
def completedCount (tasks : List Task) : Nat :=
  (tasks.filter fun t => t.completed).length

/-- Completion rate as computed both by the student header (completionRate) and by
the admin globalStats: Math.round of completed/total times 100, with 0 when the
list is empty. -/
def completionRate (tasks : List Task) : Int :=
  if tasks.length = 0 then 0
  else round ((completedCount tasks : ℚ) / (tasks.length : ℚ) * 100)

/-- Student view Today bucket: due today and not completed. -/
def todayTasks (now : Int) (tasks : List Task) : List Task :=
  tasks.filter fun t => isToday now t.dueDate && !t.completed

/-- Student view Upcoming bucket: start of the due day in the future, not due today,
not completed. -/
def upcomingTasks (now : Int) (tasks : List Task) : List Task :=
  tasks.filter fun t =>
    isFuture now (startOfDay t.dueDate) && !(isToday now t.dueDate) && !t.completed

/-- Student view Overdue bucket: start of the due day in the past, not due today,
not completed. -/
def overdueTasks (now : Int) (tasks : List Task) : List Task :=
  tasks.filter fun t =>
    isPast now (startOfDay t.dueDate) && !(isToday now t.dueDate) && !t.completed

/-- Student view Completed bucket: completed flag set, regardless of date. -/
def completedTasks (tasks : List Task) : List Task :=
  tasks.filter fun t => t.completed

/-- Comparator of the snapshot sort in the student view (a.createdAt - b.createdAt,
ascending, oldest first). -/
def taskCreatedLe (a b : Task) : Prop := a.createdAt ≤ b.createdAt

instance : DecidableRel taskCreatedLe :=
  fun a b => (inferInstance : Decidable (a.createdAt ≤ b.createdAt))

instance : IsTotal Task taskCreatedLe := ⟨fun a b => le_total a.createdAt b.createdAt⟩

instance : IsTrans Task taskCreatedLe := ⟨fun _ _ _ h1 h2 => le_trans h1 h2⟩

/-- Descending (newest first) order on createdAt.  Used only to state the ordering
the specification asserts for the Completed preview. -/
def taskCreatedGe (a b : Task) : Prop := b.createdAt ≤ a.createdAt

instance : DecidableRel taskCreatedGe :=
  fun a b => (inferInstance : Decidable (b.createdAt ≤ a.createdAt))

/-- The snapshot handler sort: fetched tasks sorted ascending by createdAt with a
stable sort (JavaScript Array.prototype.sort is stable). -/
def sortTasksByCreatedAsc (tasks : List Task) : List Task :=
  List.insertionSort taskCreatedLe tasks

/-- The capped Completed preview the student view renders: the tasks state is the
snapshot sorted ascending by createdAt, completedTasks filters it, and the Completed
column receives completedTasks.slice(0, 10). -/
def completedPreview (fetched : List Task) : List Task :=
  (completedTasks (sortTasksByCreatedAsc fetched)).take 10

/-- Modelled from the spec: the Completed preview as the specification words it,
namely the completed tasks sorted newest-first (descending) by creation time and
truncated to 10 elements.  Stated only to compare against completedPreview, which
is the embedding of the code. -/
def specCompletedPreview (fetched : List Task) : List Task :=
  (List.insertionSort taskCreatedGe (completedTasks fetched)).take 10

/-- Overdue count used by the admin view (globalStats and the notification rule):
incomplete and isPast(startOfDay(dueDate)). -/
def overdueCount (tasks : List Task) (now : Int) : Nat :=
  (tasks.filter fun t => !t.completed && isPast now (startOfDay t.dueDate)).length

/-- Modelled from the spec: overdue count as the specification words it, namely
tasks that are incomplete AND due before today (strictly earlier calendar day).
Stated only to compare against overdueCount, which is the embedding of the code. -/
def specOverdueCount (tasks : List Task) (now : Int) : Nat :=
  (tasks.filter fun t => !t.completed && decide (dayOf t.dueDate < dayOf now)).length

/-- Amended overdue condition: incomplete and either due on an earlier calendar day,
or due today while the current instant is strictly past midnight. -/
def amendedOverduePred (now : Int) (t : Task) : Bool :=
  !t.completed &&
    (decide (dayOf t.dueDate < dayOf now) ||
      (dayOf t.dueDate == dayOf now && decide (startOfDay now < now)))

/-- The globalStats record of the admin view. -/
structure GlobalStats where
  totalStudents : Nat
  totalTasks : Nat
  completedTasks : Nat
  overdueTasks : Nat
  completionRate : Int

/-- AdminDashboard globalStats. -/
def globalStats (students : List UserProfile) (allTasks : List Task) (now : Int) :
    GlobalStats :=
  { totalStudents := students.length
    totalTasks := allTasks.length
    completedTasks := completedCount allTasks
    overdueTasks := overdueCount allTasks now
    completionRate := completionRate allTasks }

/-- Notification kinds of the admin view. -/
inductive NotifType
  | info
  | success
  | warning
  | error
deriving DecidableEq

/-- An AdminNotification entry. -/
structure AdminNotif where
  id : String
  type : NotifType
  message : String
  timestamp : Int
deriving DecidableEq

/-- Newest-first order on notification timestamps (the b.timestamp - a.timestamp
comparator). -/
def notifTsGe (a b : AdminNotif) : Prop := b.timestamp ≤ a.timestamp

instance : DecidableRel notifTsGe :=
  fun a b => (inferInstance : Decidable (b.timestamp ≤ a.timestamp))

instance : IsTotal AdminNotif notifTsGe := ⟨fun a b => le_total b.timestamp a.timestamp⟩

instance : IsTrans AdminNotif notifTsGe := ⟨fun _ _ _ h1 h2 => le_trans h2 h1⟩

/-- Message of a join notification. -/
def joinMessage (s : UserProfile) : String := s.displayName ++ " joined the platform."

/-- Message of the overdue-spike notification. -/
def overdueMessage (n : Nat) : String :=
  "High overdue load: " ++ toString n ++ " overdue tasks system-wide."

/-- The notification list before its final sort: one info entry per student created
within the last 24 hours (createdAt strictly above now - 86400000), then one warning
entry when the system-wide overdue count strictly exceeds 20. -/
def notifBase (students : List UserProfile) (allTasks : List Task) (now : Int) :
    List AdminNotif :=
  ((students.filter fun s => decide (now - 86400000 < s.createdAt)).map
    fun s => { id := "join-" ++ s.uid, type := NotifType.info,
               message := joinMessage s, timestamp := s.createdAt }) ++
  (if 20 < overdueCount allTasks now then
    [{ id := "od-spike", type := NotifType.warning,
       message := overdueMessage (overdueCount allTasks now), timestamp := now }]
  else [])

/-- AdminDashboard notifications memo: the entries of notifBase sorted newest-first
by timestamp (the b.timestamp - a.timestamp comparator). -/
def notifList (students : List UserProfile) (allTasks : List Task) (now : Int) :
    List AdminNotif :=
  List.insertionSort notifTsGe (notifBase students allTasks now)

/-- Chart range of the PerformanceLineChart. -/
inductive ChartRange
  | week
  | month
deriving DecidableEq

/-- eachDayOfInterval over the chart range: the trailing 7 days for week (subDays
today 6 through today), the calendar days of the current month for month
(startOfMonth through endOfMonth), each day represented by its day number. -/
def chartDays (range : ChartRange) (now : Int) : List Int :=
  match range with
  | ChartRange.week => (List.range 7).map fun (i : Nat) => dayOf now - 6 + (i : Int)
  | ChartRange.month =>
    let today := civilFromDays (dayOf now)
    (List.range (daysInMonth today.y today.m).toNat).map
      fun (i : Nat) => daysFromCivil today.y today.m 1 + (i : Int)

/-- Count of tasks completed on a given day: completed, with a truthy completedAt
(JavaScript truthiness excludes a 0 timestamp) falling on that calendar day. -/
def completedOnDay (tasks : List Task) (day : Int) : Nat :=
  (tasks.filter fun t =>
    t.completed &&
      (match t.completedAt with
        | some c => !(c == 0) && (dayOf c == day)
        | none => false)).length

/-- PerformanceLineChart dataPoints: one (day, count) pair per day of the interval. -/
def performanceSeries (tasks : List Task) (range : ChartRange) (now : Int) :
    List (Int × Nat) :=
  (chartDays range now).map fun day => (day, completedOnDay tasks day)

/-- Role field as serialized in the CSV export. -/
def roleToString (r : UserRole) : String :=
  match r with
  | UserRole.STUDENT => "STUDENT"
  | UserRole.ADMIN => "ADMIN"

/-- AdminDashboard handleExportUsers row for one student: the six fields joined with
commas, with no escaping. -/
def exportRow (allTasks : List Task) (s : UserProfile) : String :=
  let sTasks := allTasks.filter fun t => t.userId == s.uid
  String.intercalate ","
    [s.displayName, s.email, roleToString s.role, formatYMD s.createdAt,
     toString sTasks.length, toString (sTasks.filter fun t => t.completed).length]

/-- AdminDashboard handleExportUsers rows: one row per student. -/
def exportRows (students : List UserProfile) (allTasks : List Task) : List String :=
  students.map (exportRow allTasks)

/-- Sample incomplete task due the day before day 0, used by concrete witnesses. -/
def sampleT : Task :=
  { id := "t1", userId := "u1", title := "a", dueDate := -86400000,
    completed := false, createdAt := 0 }

/-- Sample completed task, created first. -/
def cA : Task :=
  { id := "a", userId := "u", title := "a", dueDate := 0,
    completed := true, completedAt := some 1, createdAt := 0 }

/-- Sample completed task, created second. -/
def cB : Task :=
  { id := "b", userId := "u", title := "b", dueDate := 0,
    completed := true, completedAt := some 2, createdAt := 1 }

/-- Sample incomplete task due on day 0. -/
def cToday : Task :=
  { id := "c", userId := "u", title := "c", dueDate := 0,
    completed := false, createdAt := 0 }

/-- Sample student of the CSV example; 1705276800000 ms is 2024-01-15. -/
def ann : UserProfile :=
  { uid := "u1", email := "a@x.com", displayName := "Ann", photoURL := "",
    role := UserRole.STUDENT, createdAt := 1705276800000 }

/-- Sample global task list of the CSV example: three tasks of Ann, two of them
completed, plus a task of another user. -/
def annTasks : List Task :=
  [{ id := "k1", userId := "u1", title := "x1", dueDate := 0,
     completed := true, createdAt := 0 },
   { id := "k2", userId := "u1", title := "x2", dueDate := 0,
     completed := true, createdAt := 1 },
   { id := "k3", userId := "u1", title := "x3", dueDate := 0,
     completed := false, createdAt := 2 },
   { id := "k4", userId := "u2", title := "x4", dueDate := 0,
     completed := true, createdAt := 3 }]

/-!  Theorems.  -/

lemma mem_overdueTasks (now : Int) (tasks : List Task) (t : Task) :
    t ∈ overdueTasks now tasks ↔
      t ∈ tasks ∧ t.completed = false ∧ dayOf t.dueDate < dayOf now := by
  simp only [overdueTasks, List.mem_filter, Bool.and_eq_true, isPast, isToday,
    decide_eq_true_eq, Bool.not_eq_true', beq_eq_false_iff_ne, ne_eq]
  have h : (startOfDay t.dueDate < now ∧ ¬dayOf t.dueDate = dayOf now) ↔
      dayOf t.dueDate < dayOf now := by
    simp only [startOfDay, dayOf, dayMs]; omega
  tauto

lemma mem_todayTasks (now : Int) (tasks : List Task) (t : Task) :
    t ∈ todayTasks now tasks ↔
      t ∈ tasks ∧ t.completed = false ∧ dayOf t.dueDate = dayOf now := by
  simp only [todayTasks, List.mem_filter, Bool.and_eq_true, isToday,
    beq_iff_eq, Bool.not_eq_true']
  tauto

lemma mem_upcomingTasks (now : Int) (tasks : List Task) (t : Task) :
    t ∈ upcomingTasks now tasks ↔
      t ∈ tasks ∧ t.completed = false ∧ dayOf now < dayOf t.dueDate := by
  simp only [upcomingTasks, List.mem_filter, Bool.and_eq_true, isFuture, isToday,
    decide_eq_true_eq, Bool.not_eq_true', beq_eq_false_iff_ne, ne_eq]
  have h : (now < startOfDay t.dueDate ∧ ¬dayOf t.dueDate = dayOf now) ↔
      dayOf now < dayOf t.dueDate := by
    simp only [startOfDay, dayOf, dayMs]; omega
  tauto

lemma mem_completedTasks (tasks : List Task) (t : Task) :
    t ∈ completedTasks tasks ↔ t ∈ tasks ∧ t.completed = true := by
  simp only [completedTasks, List.mem_filter]

/-- Claim C1: for every task list and current instant, the four buckets of the
student view cover the full list (a task is in the list exactly when it is in some
bucket), the three non-completed buckets are pairwise disjoint, and for an
incomplete task of the list they classify it exactly by its due day being before,
on, or after the current day. -/
theorem c1_bucket_partition (now : Int) (tasks : List Task) (t : Task) :
    (t ∈ tasks ↔ (t ∈ overdueTasks now tasks ∨ t ∈ todayTasks now tasks ∨
        t ∈ upcomingTasks now tasks ∨ t ∈ completedTasks tasks))
    ∧ ¬(t ∈ overdueTasks now tasks ∧ t ∈ todayTasks now tasks)
    ∧ ¬(t ∈ overdueTasks now tasks ∧ t ∈ upcomingTasks now tasks)
    ∧ ¬(t ∈ todayTasks now tasks ∧ t ∈ upcomingTasks now tasks)
    ∧ (t ∈ tasks → t.completed = false →
        ((t ∈ overdueTasks now tasks ↔ dayOf t.dueDate < dayOf now)
        ∧ (t ∈ todayTasks now tasks ↔ dayOf t.dueDate = dayOf now)
        ∧ (t ∈ upcomingTasks now tasks ↔ dayOf now < dayOf t.dueDate))) := by
  simp only [mem_overdueTasks, mem_todayTasks, mem_upcomingTasks, mem_completedTasks]
  have tri : dayOf t.dueDate < dayOf now ∨ dayOf t.dueDate = dayOf now ∨
      dayOf now < dayOf t.dueDate := by omega
  have e1 : ¬(dayOf t.dueDate < dayOf now ∧ dayOf t.dueDate = dayOf now) := by omega
  have e2 : ¬(dayOf t.dueDate < dayOf now ∧ dayOf now < dayOf t.dueDate) := by omega
  have e3 : ¬(dayOf t.dueDate = dayOf now ∧ dayOf now < dayOf t.dueDate) := by omega
  have hb : ¬(t.completed = false ∧ t.completed = true) := by simp
  have hcc : t.completed = false ∨ t.completed = true := by cases t.completed <;> simp
  tauto

/-- Witness for C1: at noon-of-day-0 instant 100, the concrete incomplete task due
the previous day is classified overdue. -/
theorem c1_bucket_partition_witness :
    sampleT ∈ overdueTasks 100 [sampleT] ↔ dayOf sampleT.dueDate < dayOf 100 :=
  ((c1_bucket_partition 100 [sampleT] sampleT).2.2.2.2 (by decide) (by decide)).1

/-- Claim C4: toggling a task writes a completedAt timestamp exactly when the new
completed flag is true and clears it otherwise, so the toggled task always satisfies
the completedAt-iff-completed invariant. -/
theorem c4_toggle_completedAt (task : Task) (now : Int) :
    ((toggleTask task now).completed = true → (toggleTask task now).completedAt = some now)
    ∧ ((toggleTask task now).completed = false → (toggleTask task now).completedAt = none)
    ∧ ((toggleTask task now).completedAt.isSome ↔ (toggleTask task now).completed = true) := by
  cases h : task.completed <;> simp [toggleTask, h]

/-- Witness for C4: toggling the concrete incomplete task at instant 5 records
completedAt = 5. -/
theorem c4_toggle_completedAt_witness :
    (toggleTask sampleT 5).completedAt = some 5 :=
  (c4_toggle_completedAt sampleT 5).1 (by decide)

/-- Claim C7: the performance chart series has length 7 in weekly range and length
the number of days of the current calendar month in monthly range, for every task
list. -/
theorem c7_chart_series_length (tasks : List Task) (now : Int) :
    (performanceSeries tasks ChartRange.week now).length = 7
    ∧ (performanceSeries tasks ChartRange.month now).length
        = (daysInMonth (civilFromDays (dayOf now)).y (civilFromDays (dayOf now)).m).toNat := by
  constructor
  · simp only [performanceSeries, chartDays]
    rw [List.length_map, List.length_map, List.length_range]
  · simp only [performanceSeries, chartDays]
    rw [List.length_map, List.length_map, List.length_range]

/-- Counterexample to claim C2 as stated: with two completed tasks created at
instants 0 and 1, the rendered Completed preview lists them oldest-first, which
differs from the completed tasks sorted descending by creation time and truncated
to 10 that the claim asserts. -/
theorem c2_completed_preview_counterexample :
    completedPreview [cA, cB] ≠ specCompletedPreview [cA, cB] := by decide

/-- Claim C2 (amended): the capped Completed preview equals the first 10 completed
tasks of the snapshot sorted ascending (oldest-first) by creation time; it is
therefore sorted oldest-first, and every task shown is completed. -/
theorem c2_completed_preview_amended (fetched : List Task) :
    completedPreview fetched
      = ((sortTasksByCreatedAsc fetched).filter fun t => t.completed).take 10
    ∧ List.Sorted taskCreatedLe (completedPreview fetched)
    ∧ (∀ t ∈ completedPreview fetched, t.completed = true) := by
  refine ⟨rfl, ?_, ?_⟩
  · have hs : List.Sorted taskCreatedLe (sortTasksByCreatedAsc fetched) :=
      List.sorted_insertionSort taskCreatedLe fetched
    have hf : List.Pairwise taskCreatedLe
        (completedTasks (sortTasksByCreatedAsc fetched)) :=
      List.Pairwise.filter _ hs
    exact List.Pairwise.sublist (List.take_sublist 10 _) hf
  · intro t ht
    have h1 : t ∈ completedTasks (sortTasksByCreatedAsc fetched) :=
      List.mem_of_mem_take ht
    exact ((mem_completedTasks _ t).mp h1).2

/-- Witness for C2 (amended): the earliest-created completed task of the concrete
two-task list is shown in the preview and is completed. -/
theorem c2_completed_preview_amended_witness : cA.completed = true :=
  (c2_completed_preview_amended [cA, cB]).2.2 cA (by decide)

lemma overdue_pred_eq (now : Int) (t : Task) :
    (!t.completed && isPast now (startOfDay t.dueDate)) = amendedOverduePred now t := by
  cases hc : t.completed
  · apply Bool.eq_iff_iff.mpr
    simp only [amendedOverduePred, isPast, hc, Bool.not_false, Bool.true_and,
      Bool.or_eq_true, Bool.and_eq_true, decide_eq_true_eq, beq_iff_eq]
    simp only [startOfDay, dayOf, dayMs]
    omega
  · simp [amendedOverduePred, hc]

/-- Counterexample to claim C3 as stated: at instant 43200000 (noon of day 0), the
single incomplete task due on day 0 is due today, yet the admin statistics count it
as overdue, while the incomplete-and-due-before-today count of the claim is 0. -/
theorem c3_overdue_count_counterexample :
    (globalStats [] [cToday] 43200000).overdueTasks
      ≠ specOverdueCount [cToday] 43200000 := by decide

/-- Claim C3 (amended): the overdue count of the admin global statistics equals the
number of tasks that are incomplete and whose due day is before today OR equal to
today while the current instant is strictly past midnight; in particular an
incomplete task due today is counted as overdue whenever the current time is past
the start of the day. -/
theorem c3_overdue_count_amended (students : List UserProfile) (tasks : List Task)
    (now : Int) :
    (globalStats students tasks now).overdueTasks
      = tasks.countP (amendedOverduePred now) := by
  show overdueCount tasks now = _
  rw [overdueCount, ← List.countP_eq_length_filter]
  exact List.countP_congr fun t _ => by rw [overdue_pred_eq]

/-- Claim C5: task creation rejects every due-date string lexicographically earlier
than the yyyy-MM-dd string of the current day (no task is added), and for a date
string not earlier than today together with a non-blank trimmed title it succeeds,
storing as dueDate the start-of-day-normalized timestamp of the parsed date
string. -/
theorem c5_add_task (userId title : String) (ds : DateStr) (now : Int) :
    (dateStrLt ds (todayDateStr now) = true → handleAddTask userId title ds now = none)
    ∧ (dateStrLt ds (todayDateStr now) = false → jsTrim title ≠ "" →
        ∃ t, handleAddTask userId title ds now = some t
          ∧ t.dueDate = startOfDay (parseISO ds)) := by
  constructor
  · intro h
    by_cases ht : jsTrim title = "" <;> simp [handleAddTask, ht, h]
  · intro h htitle
    refine ⟨{ id := "", userId := userId, title := jsTrim title,
              dueDate := startOfDay (parseISO ds),
              completed := false, createdAt := now }, ?_, rfl⟩
    simp [handleAddTask, htitle, h]

/-- Witness for C5: on day 0 (instant 100, today string 1970-01-01), creation with
date string 1969-12-31 is rejected, and creation with date string 1970-01-02 and
title "study" succeeds with the normalized timestamp. -/
theorem c5_add_task_witness :
    handleAddTask "u" "study" ⟨1969, 12, 31⟩ 100 = none
    ∧ ∃ t, handleAddTask "u" "study" ⟨1970, 1, 2⟩ 100 = some t
        ∧ t.dueDate = startOfDay (parseISO ⟨1970, 1, 2⟩) :=
  ⟨(c5_add_task "u" "study" ⟨1969, 12, 31⟩ 100).1 (by decide),
   (c5_add_task "u" "study" ⟨1970, 1, 2⟩ 100).2 (by decide) (by decide)⟩

/-- Claim C10: editing an existing task is rejected exactly when the trimmed title
is blank; no past-date check is made, so for every date string, including one
lexicographically earlier than any given current-day string, an edit with a
non-blank title succeeds and stores the start-of-day timestamp of the parsed
date. -/
theorem c10_update_task (task : Task) (title : String) (ds today : DateStr) :
    (jsTrim title = "" → handleUpdateTask task title ds = none)
    ∧ (jsTrim title ≠ "" →
        handleUpdateTask task title ds
          = some { task with title := jsTrim title,
                             dueDate := startOfDay (parseISO ds) })
    ∧ (dateStrLt ds today = true → jsTrim title ≠ "" →
        ∃ t2, handleUpdateTask task title ds = some t2
          ∧ t2.dueDate = startOfDay (parseISO ds)) := by
  refine ⟨fun h => by simp [handleUpdateTask, h],
          fun h => by simp [handleUpdateTask, h], ?_⟩
  intro _ h
  exact ⟨{ task with title := jsTrim title, dueDate := startOfDay (parseISO ds) },
    by simp [handleUpdateTask, h], rfl⟩

/-- Witness for C10: with today string 1970-01-01, editing the concrete task to the
strictly earlier date string 1969-12-31 with title "edit" succeeds and moves the
due date into the past. -/
theorem c10_update_task_witness :
    ∃ t2, handleUpdateTask sampleT "edit" ⟨1969, 12, 31⟩ = some t2
      ∧ t2.dueDate = startOfDay (parseISO ⟨1969, 12, 31⟩) :=
  (c10_update_task sampleT "edit" ⟨1969, 12, 31⟩ ⟨1970, 1, 1⟩).2.2 (by decide) (by decide)

/-- Claim C6: the completion rate, one formula shared by the student header and the
admin globalStats, is an integer in the range 0..100, equals 0 on the empty list
(no division by zero), and otherwise equals the rounded percentage
round(completed / total * 100). -/
theorem c6_completion_rate (students : List UserProfile) (tasks : List Task)
    (now : Int) :
    0 ≤ completionRate tasks ∧ completionRate tasks ≤ 100
    ∧ (tasks.length = 0 → completionRate tasks = 0)
    ∧ (tasks.length ≠ 0 → completionRate tasks
        = round ((completedCount tasks : ℚ) / (tasks.length : ℚ) * 100))
    ∧ (globalStats students tasks now).completionRate = completionRate tasks := by
  by_cases h : tasks.length = 0
  · simp [completionRate, h, globalStats]
  · have hn : 0 < (tasks.length : ℚ) := by
      exact_mod_cast Nat.pos_of_ne_zero h
    have hc0 : completedCount tasks ≤ tasks.length := List.length_filter_le _ tasks
    have hc : (completedCount tasks : ℚ) ≤ (tasks.length : ℚ) := by exact_mod_cast hc0
    have h1 : (completedCount tasks : ℚ) / (tasks.length : ℚ) ≤ 1 :=
      div_le_one_of_le₀ hc (le_of_lt hn)
    have hx0 : 0 ≤ (completedCount tasks : ℚ) / (tasks.length : ℚ) * 100 := by positivity
    have hx100 : (completedCount tasks : ℚ) / (tasks.length : ℚ) * 100 ≤ 100 := by
      nlinarith
    have hrate : completionRate tasks
        = round ((completedCount tasks : ℚ) / (tasks.length : ℚ) * 100) := by
      simp [completionRate, h]
    refine ⟨?_, ?_, fun h0 => absurd h0 h, fun _ => hrate, rfl⟩
    · rw [hrate, round_eq]
      exact Int.le_floor.mpr (by push_cast; linarith)
    · rw [hrate, round_eq]
      have hfl : ⌊(completedCount tasks : ℚ) / (tasks.length : ℚ) * 100 + 1 / 2⌋
          < (101 : Int) :=
        Int.floor_lt.mpr (by push_cast; linarith)
      omega

/-- Witness for C6: on the concrete two-task list with one completed task the rate
is within bounds and equals the rounded percentage, and on the empty list it is
0. -/
theorem c6_completion_rate_witness :
    0 ≤ completionRate [cA, cToday] ∧ completionRate [cA, cToday] ≤ 100
    ∧ completionRate [cA, cToday]
      = round ((completedCount [cA, cToday] : ℚ)
          / (([cA, cToday] : List Task).length : ℚ) * 100)
    ∧ completionRate [] = 0 :=
  ⟨(c6_completion_rate [] [cA, cToday] 0).1,
   (c6_completion_rate [] [cA, cToday] 0).2.1,
   (c6_completion_rate [] [cA, cToday] 0).2.2.2.1 (by decide),
   (c6_completion_rate [] [] 0).2.2.1 (by decide)⟩

/-- Claim C8: the derived notification list has exactly one info entry per student
whose account was created within the last 24 hours (createdAt strictly above
now - 86400000), exactly one warning entry when the system-wide overdue count
strictly exceeds 20 and none otherwise, and is sorted newest-first by timestamp. -/
theorem c8_admin_notif_list (students : List UserProfile) (allTasks : List Task)
    (now : Int) :
    (notifList students allTasks now).countP (fun n => n.type == NotifType.info)
      = students.countP (fun s => decide (now - 86400000 < s.createdAt))
    ∧ (notifList students allTasks now).countP (fun n => n.type == NotifType.warning)
      = (if 20 < overdueCount allTasks now then 1 else 0)
    ∧ List.Sorted notifTsGe (notifList students allTasks now) := by
  have hperm := List.perm_insertionSort notifTsGe (notifBase students allTasks now)
  refine ⟨?_, ?_, List.sorted_insertionSort notifTsGe _⟩
  · rw [notifList, List.Perm.countP_eq _ hperm, notifBase, List.countP_append]
    have h1 : ∀ a ∈ (students.filter fun s =>
        decide (now - 86400000 < s.createdAt)).map
          (fun s => ({ id := "join-" ++ s.uid, type := NotifType.info,
                       message := joinMessage s,
                       timestamp := s.createdAt } : AdminNotif)),
        (fun n => n.type == NotifType.info) a = true := by
      intro a ha
      obtain ⟨s, _, rfl⟩ := List.mem_map.mp ha
      rfl
    rw [List.countP_eq_length.mpr h1, List.length_map, ← List.countP_eq_length_filter]
    have h2 : (if 20 < overdueCount allTasks now then
        [({ id := "od-spike", type := NotifType.warning,
            message := overdueMessage (overdueCount allTasks now),
            timestamp := now } : AdminNotif)] else []).countP
          (fun n => n.type == NotifType.info) = 0 := by
      split <;> simp
    rw [h2, Nat.add_zero]
  · rw [notifList, List.Perm.countP_eq _ hperm, notifBase, List.countP_append]
    have h1 : (((students.filter fun s =>
        decide (now - 86400000 < s.createdAt)).map
          (fun s => ({ id := "join-" ++ s.uid, type := NotifType.info,
                       message := joinMessage s,
                       timestamp := s.createdAt } : AdminNotif))).countP
          (fun n => n.type == NotifType.warning)) = 0 := by
      rw [List.countP_eq_zero]
      intro a ha
      obtain ⟨s, _, rfl⟩ := List.mem_map.mp ha
      simp
    rw [h1, Nat.zero_add]
    split <;> simp

/-- Claim C9: the CSV export emits one row per student, the naive comma join (no
field escaping) of display name, email, role, yyyy-MM-dd join date, total task
count and completed task count; on the concrete example student Ann
(a@x.com, STUDENT, joined 2024-01-15, 3 tasks of which 2 completed) the row is the
expected literal string. -/
theorem c9_csv_export (students : List UserProfile) (allTasks : List Task) :
    exportRows students allTasks = students.map (fun s => String.intercalate ","
      [s.displayName, s.email, roleToString s.role, formatYMD s.createdAt,
       toString (allTasks.filter fun t => t.userId == s.uid).length,
       toString ((allTasks.filter fun t => t.userId == s.uid).filter
         fun t => t.completed).length])
    ∧ exportRow annTasks ann = "Ann,a@x.com,STUDENT,2024-01-15,3,2" :=
  ⟨rfl, by decide⟩

end StudyTracker
